import Mathlib

/-!
Verification of the manager / cache / resolvable layer of the twitter.js
client library.

The definitions below are a shallow embedding of the two manager source
files (`SpaceManager` and `UserManager`) together with the option shapes
declared in `typings/Interfaces.ts`.  JavaScript values that flow through
the managers are modelled by small inductives that record exactly the
distinctions the source code observes (`typeof`, `Array.isArray`,
`'field' in options`, truthiness).  The HTTP transport is modelled as an
oracle: each embedded fetch returns, besides its result, the list of
transport calls it issued, so cache-hit / call-count properties can be
stated directly.  Errors (`CustomTypeError` and native `TypeError`) are
modelled with an `Except` result.

Code of the repository that is referenced but not present in the sources
(the `BaseManager` resolution helpers, `_add`, the user structure builder
and response cleaner) is modelled from the specification; every such
definition carries a doc comment starting with `Modelled from the spec:`.
-/

namespace TwitterJs

/-- JS truthiness of a possibly-absent string value (`undefined`/`null`
and the empty string are falsy). -/
def strTruthy : Option String → Bool
  | none => false
  | some s => !s.isEmpty

/-- A canonical-ID ("snowflake") format check: a non-empty numeric string.
The spec describes canonical IDs as format-validated numeric strings. -/
def isSnowflake (s : String) : Bool :=
  !s.data.isEmpty && s.data.all Char.isDigit

/-- A `Collection` (the keyed map used for caches and fetch results),
modelled as an insertion-ordered association list keyed by ID. -/
abbrev Collection (α : Type) : Type := List (String × α)

/-- `Collection#get`: look the value up by its key. -/
def Collection.get {α : Type} (c : Collection α) (k : String) : Option α :=
  (List.find? (fun kv => kv.1 == k) c).map (fun kv => kv.2)

/-- `Collection#find`: first value satisfying the predicate, in insertion
order. -/
def Collection.findVal {α : Type} (c : Collection α) (p : α → Bool) : Option α :=
  (List.find? (fun kv => p kv.2) c).map (fun kv => kv.2)

/-- `Collection#set`: upsert, keeping the position of an existing key and
appending a new one. -/
def Collection.set {α : Type} (c : Collection α) (k : String) (v : α) : Collection α :=
  if (List.find? (fun kv => kv.1 == k) c).isSome then
    List.map (fun kv => if kv.1 == k then (k, v) else kv) c
  else
    c ++ [(k, v)]

/-- Errors observable from the managers: the library's own
`CustomTypeError` (key plus arguments — the spec's `InvalidArgument` /
`ResolutionError` taxonomy) and the native JS `TypeError` (thrown e.g. by
a property access or `in` on `null`, or by iterating `undefined`). -/
inductive JsError where
  | customType (key : String) (args : List String)
  | typeError
deriving DecidableEq

/-! ## Entities and caches -/

/-- The slice of a `Space` entity the manager logic observes. -/
structure Space where
  id : String
deriving DecidableEq

/-- The slice of a `User` entity the manager logic observes: canonical ID
plus the secondary key (username). -/
structure User where
  id : String
  username : String
deriving DecidableEq

/-- Raw space payload inside a response envelope (`data` items). -/
structure RawSpace where
  id : String
deriving DecidableEq

/-- Raw user payload inside a response envelope. -/
structure RawUser where
  id : String
  username : String
deriving DecidableEq

/-! ## Resolvables -/

/-- `SpaceResolvable`: a `Space` instance or a string (an ID, or any other
string). -/
inductive SpaceResolvable where
  | inst (s : Space)
  | str (v : String)
deriving DecidableEq

/-- `UserResolvable`: a `User` instance, a string (ID or username), or any
other JS value (`other` stands for a value that is neither a string nor a
`User` instance, e.g. a number; modelled as truthy). -/
inductive UserResolvable where
  | inst (u : User)
  | str (v : String)
  | other
deriving DecidableEq

/-- Modelled from the spec: `BaseManager#resolveId` is not under `src/`
(only its subclasses are).  Spec 4.1: an entity instance resolves to its
own ID; a string in canonical-ID format (validated, numeric) resolves to
itself; anything else resolves to null.  Spaces have no secondary key. -/
def spaceResolveId : SpaceResolvable → Option String
  | .inst s => some s.id
  | .str v => if isSnowflake v then some v else none

/-- Modelled from the spec: `BaseManager#resolveID` for users (the base
class is not under `src/`): instance → its ID; canonical-ID-format string
→ itself; otherwise null. -/
def baseResolveID : UserResolvable → Option String
  | .inst u => some u.id
  | .str v => if isSnowflake v then some v else none
  | .other => none

/-- Modelled from the spec: `BaseManager#resolve` (not under `src/`):
an instance is returned directly; otherwise `resolveId` followed by a
cache lookup; null when resolution fails. -/
def baseResolve (cache : Collection User) : UserResolvable → Option User
  | .inst u => some u
  | r =>
    match baseResolveID r with
    | some i => Collection.get cache i
    | none => none

/-- `UserManager#resolveID` (source lines 213–218): try the base
resolution first (`if (userID) return userID` — truthiness, so an empty
string falls through); for a string input, scan the cache for a user whose
`username` equals it and return that entry's ID; otherwise null. -/
def UserManager.resolveID (cache : Collection User) (r : UserResolvable) : Option String :=
  let userID := baseResolveID r
  if strTruthy userID then userID
  else
    match r with
    | .str v => (Collection.findVal cache (fun u => u.username == v)).map (fun u => u.id)
    | _ => none

/-- `UserManager#resolve` (source lines 199–206): base resolve; else base
`resolveID`, and if that is truthy, return `super.resolve(userID)`
directly (even when that lookup misses); else, for a string input, scan
the cache by username; otherwise null. -/
def UserManager.resolve (cache : Collection User) (r : UserResolvable) : Option User :=
  match baseResolve cache r with
  | some u => some u
  | none =>
    let userID := baseResolveID r
    if strTruthy userID then baseResolve cache (.str (userID.getD ""))
    else
      match r with
      | .str v => Collection.findVal cache (fun u => u.username == v)
      | _ => none

/-! ## Response envelopes and transport calls (Space side) -/

/-- Response of the single-space-by-ID endpoint: the manager reads
`data.data.id` (the payload is always present in this envelope's type). -/
structure SingleSpaceResponse where
  data : RawSpace
deriving DecidableEq

/-- The `meta` part of a multi-entity envelope. -/
structure SpaceMeta where
  result_count : Nat
deriving DecidableEq

/-- Response envelope of the multi-space endpoints.  `data := none` models
a response in which the `data` field is absent (the situation the spec
describes for `meta.result_count === 0`); iterating it in JS throws a
`TypeError`. -/
structure MultiSpaceResponse where
  meta : SpaceMeta
  data : Option (List RawSpace)
deriving DecidableEq

/-- One transport call issued by the `SpaceManager`. -/
inductive SpaceApiCall where
  | singleById (id : String)
  | multiByIds (ids : List String)
  | byCreatorIds (userIds : List String)
  | searchSpaces (q : String)
deriving DecidableEq

/-! ## Option shapes (Space side) -/

/-- Value of the `spaces` field when present: an array of resolvables, or
some non-array value (which must fail `Array.isArray`). -/
inductive SpacesFieldVal where
  | arr (l : List SpaceResolvable)
  | nonArray
deriving DecidableEq

/-- The observable shape of a `FetchSpaceOptions`/`FetchSpacesOptions`
object: which of the `space`/`spaces` fields are present (`'space' in
options`) and the two flags (`skipCacheCheck` defaults to falsy,
`cacheAfterFetching` is absent or an explicit boolean). -/
structure SpaceOptionsObj where
  space : Option SpaceResolvable
  spaces : Option SpacesFieldVal
  skipCacheCheck : Bool := false
  cacheAfterFetching : Option Bool := none
deriving DecidableEq

/-- The argument of `SpaceManager#fetch` as JS sees it: a value whose
`typeof` is not `object` (string, number, boolean, undefined, …); `null`
(for which `typeof` IS `object`, but `'space' in null` throws a
`TypeError`); or an actual object. -/
inductive SpaceFetchOptions where
  | notObject
  | nullOpt
  | obj (o : SpaceOptionsObj)
deriving DecidableEq

/-- Result shape of `SpaceManager#fetch`. -/
inductive SpaceFetchResult where
  | single (s : Space)
  | multiple (col : Collection Space)
deriving DecidableEq

/-- Modelled from the spec: `BaseManager#_add` is not under `src/`.  It
constructs the entity from the raw payload and upserts it into the cache
unless `cacheAfterFetching` is explicitly false, returning the entity. -/
def addSpaceToCache (cache : Collection Space) (id : String) (cacheAfterFetching : Option Bool) :
    Space × Collection Space :=
  let s : Space := ⟨id⟩
  if cacheAfterFetching = some false then (s, cache) else (s, Collection.set cache id s)

/-- The response-merging loop shared by the multi-space paths (source
lines 85–88, 113–116, 154–157): `_add` each raw space, then `set` it into
the result collection. -/
def addAllSpaces (cache : Collection Space) (raws : List RawSpace) (caf : Option Bool) :
    Collection Space × Collection Space :=
  raws.foldl
    (fun acc raw =>
      let t := addSpaceToCache acc.2 raw.id caf
      (Collection.set acc.1 t.1.id t.1, t.2))
    ([], cache)

/-- `SpaceManager#fetchSingleSpace` (source lines 122–136): unless
`skipCacheCheck` is truthy, a cache hit is returned with no transport
call; otherwise one call to the single-space endpoint is made and the
result `_add`ed. -/
def fetchSingleSpace (cache : Collection Space) (o : SpaceOptionsObj) (spaceId : String)
    (resp : SingleSpaceResponse) : Space × List SpaceApiCall × Collection Space :=
  if o.skipCacheCheck = false then
    match Collection.get cache spaceId with
    | some cached => (cached, [], cache)
    | none =>
      let t := addSpaceToCache cache resp.data.id o.cacheAfterFetching
      (t.1, [.singleById spaceId], t.2)
  else
    let t := addSpaceToCache cache resp.data.id o.cacheAfterFetching
    (t.1, [.singleById spaceId], t.2)

/-- `SpaceManager#fetchMultipleSpaces` (source lines 138–159): one call to
the multi-space endpoint, then the merge loop over `data.data` — note the
source performs no `meta.result_count` check here, so an absent `data`
field is iterated and throws a `TypeError`. -/
def fetchMultipleSpaces (cache : Collection Space) (o : SpaceOptionsObj)
    (spaceIds : List String) (resp : MultiSpaceResponse) :
    Except JsError (Collection Space) × List SpaceApiCall × Collection Space :=
  match resp.data with
  | none => (.error .typeError, [.multiByIds spaceIds], cache)
  | some raws =>
    let t := addAllSpaces cache raws o.cacheAfterFetching
    (.ok t.1, [.multiByIds spaceIds], t.2)

/-- The `options.spaces.map` of source lines 49–53: resolve every element,
throwing `SPACE_RESOLVE_ID` at the first falsy resolution. -/
def resolveSpaceIds : List SpaceResolvable → Except JsError (List String)
  | [] => .ok []
  | r :: rest =>
    let sid := spaceResolveId r
    if strTruthy sid then
      match resolveSpaceIds rest with
      | .ok ids => .ok (sid.getD "" :: ids)
      | .error e => .error e
    else .error (.customType "SPACE_RESOLVE_ID" [])

/-- `SpaceManager#fetch` (source lines 40–57): `typeof` check, then the
`space` field (single path, with resolution), then the `spaces` field
(`Array.isArray` check, element-wise resolution, multi path), else
`INVALID_FETCH_OPTIONS`.  Returns the result, the transport calls issued
and the final cache. -/
def SpaceManager.fetch (cache : Collection Space) (options : SpaceFetchOptions)
    (singleResp : SingleSpaceResponse) (multiResp : MultiSpaceResponse) :
    Except JsError SpaceFetchResult × List SpaceApiCall × Collection Space :=
  match options with
  | .notObject => (.error (.customType "INVALID_TYPE" ["options", "object"]), [], cache)
  | .nullOpt => (.error .typeError, [], cache)
  | .obj o =>
    match o.space with
    | some r =>
      let sid := spaceResolveId r
      if strTruthy sid then
        let t := fetchSingleSpace cache o (sid.getD "") singleResp
        (.ok (.single t.1), t.2.1, t.2.2)
      else (.error (.customType "SPACE_RESOLVE_ID" []), [], cache)
    | none =>
      match o.spaces with
      | some (.arr l) =>
        match resolveSpaceIds l with
        | .error e => (.error e, [], cache)
        | .ok ids =>
          let t := fetchMultipleSpaces cache o ids multiResp
          (t.1.map .multiple, t.2.1, t.2.2)
      | some .nonArray => (.error (.customType "INVALID_TYPE" ["spaces", "array"]), [], cache)
      | none => (.error (.customType "INVALID_FETCH_OPTIONS" []), [], cache)

/-! ## `SpaceManager#fetchByCreatorIds` and `SpaceManager#search` -/

/-- Value of the `users` field of `FetchSpacesByCreatorIdsOptions` when
present. -/
inductive UsersFieldVal where
  | arr (l : List UserResolvable)
  | nonArray
deriving DecidableEq

/-- Observable shape of a `FetchSpacesByCreatorIdsOptions` object
(`users := none` models an absent field, which also fails
`Array.isArray`). -/
structure CreatorIdsOptionsObj where
  users : Option UsersFieldVal
  cacheAfterFetching : Option Bool := none
deriving DecidableEq

/-- The argument of `SpaceManager#fetchByCreatorIds` as JS sees it. -/
inductive CreatorIdsOptions where
  | notObject
  | nullOpt
  | obj (o : CreatorIdsOptionsObj)
deriving DecidableEq

/-- The `options.users.map` of source lines 68–72: resolve every user via
`client.users.resolveId`, throwing `USER_RESOLVE_ID` at the first falsy
resolution. -/
def resolveUserIds (userCache : Collection User) : List UserResolvable → Except JsError (List String)
  | [] => .ok []
  | r :: rest =>
    let uid := UserManager.resolveID userCache r
    if strTruthy uid then
      match resolveUserIds userCache rest with
      | .ok ids => .ok (uid.getD "" :: ids)
      | .error e => .error e
    else .error (.customType "USER_RESOLVE_ID" ["fetch spaces of"])

/-- `SpaceManager#fetchByCreatorIds` (source lines 64–90): validation,
user-ID resolution, one transport call; a `meta.result_count === 0`
response returns the (still empty) collection without touching `data`. -/
def SpaceManager.fetchByCreatorIds (userCache : Collection User) (cache : Collection Space)
    (options : CreatorIdsOptions) (resp : MultiSpaceResponse) :
    Except JsError (Collection Space) × List SpaceApiCall × Collection Space :=
  match options with
  | .notObject => (.error (.customType "INVALID_TYPE" ["options", "object"]), [], cache)
  | .nullOpt => (.error .typeError, [], cache)
  | .obj o =>
    match o.users with
    | some (.arr l) =>
      match resolveUserIds userCache l with
      | .error e => (.error e, [], cache)
      | .ok ids =>
        if resp.meta.result_count == 0 then (.ok [], [.byCreatorIds ids], cache)
        else
          match resp.data with
          | none => (.error .typeError, [.byCreatorIds ids], cache)
          | some raws =>
            let t := addAllSpaces cache raws o.cacheAfterFetching
            (.ok t.1, [.byCreatorIds ids], t.2)
    | _ => (.error (.customType "INVALID_TYPE" ["users", "array"]), [], cache)

/-- Observable shape of `SearchSpacesOptions`. -/
structure SearchSpacesOpts where
  query : String
  cacheAfterFetching : Option Bool := none
deriving DecidableEq

/-- `SpaceManager#search` (source lines 97–118): one transport call; a
`meta.result_count === 0` response returns the empty collection without
touching `data`. -/
def SpaceManager.search (cache : Collection Space) (options : SearchSpacesOpts)
    (resp : MultiSpaceResponse) :
    Except JsError (Collection Space) × List SpaceApiCall × Collection Space :=
  if resp.meta.result_count == 0 then (.ok [], [.searchSpaces options.query], cache)
  else
    match resp.data with
    | none => (.error .typeError, [.searchSpaces options.query], cache)
    | some raws =>
      let t := addAllSpaces cache raws options.cacheAfterFetching
      (.ok t.1, [.searchSpaces options.query], t.2)

/-! ## `UserManager#fetch` -/

/-- One transport call issued by the `UserManager`.  `fetchUserById`
receives whatever JS value the manager passes it (source line 278 passes
the raw `options.user` resolvable), so its payload is a resolvable. -/
inductive UserApiCall where
  | byId (q : UserResolvable)
  | byUsername (q : String)
  | manyByIds (ids : List String)
  | manyByUsernames (names : List String)
deriving DecidableEq

/-- The REST collaborator (`client.rest`), as an oracle mapping each
endpoint call to the payload it would return. -/
structure UserRest where
  fetchUserById : UserResolvable → RawUser
  fetchUserByUsername : String → RawUser
  fetchUsersByIds : List String → List RawUser
  fetchUsersByUsernames : List String → List RawUser

/-- Modelled from the spec: `userBuilder` (`util/StructureBuilder.js`, not
under `src/`) constructs the `User` entity from raw response data. -/
def buildUser (raw : RawUser) : User := ⟨raw.id, raw.username⟩

/-- Modelled from the spec: `userBuilder` plus
`cleanFetchManyUsersResponse` (not under `src/`) merge the buckets'
responses into one result collection keyed by ID, stable with respect to
each response's own order. -/
def buildUserCollection (raws : List RawUser) : Collection User :=
  raws.foldl (fun acc raw => Collection.set acc raw.id (buildUser raw)) []

/-- Value of the `user` field of a user-fetch options object when present:
a single resolvable or an array of them. -/
inductive UserFieldVal where
  | single (r : UserResolvable)
  | arr (l : List UserResolvable)
deriving DecidableEq

/-- The argument of `UserManager#fetch` as JS sees it: a bare resolvable
(string, `User` instance, or other value), `null` (whose `user` property
access throws a `TypeError`), or an options object whose `user` field may
be absent. -/
inductive UserFetchOptions where
  | direct (r : UserResolvable)
  | nullOpt
  | obj (user : Option UserFieldVal) (skipCacheCheck : Bool)
deriving DecidableEq

/-- Result shape of `UserManager#fetch`; `undef` models the JS `undefined`
the source returns when it falls off the end of the function. -/
inductive UserFetchResult where
  | single (u : User)
  | many (col : Collection User)
  | undef
deriving DecidableEq

/-- JS truthiness of the `user` field value in `if (options.user)`:
an empty string is falsy; instances are truthy; `other` models a truthy
non-string value such as a non-zero number. -/
def resolvableTruthy : UserResolvable → Bool
  | .str v => !v.isEmpty
  | .inst _ => true
  | .other => true

/-- The bucket partition of source lines 259–268: each element that
resolves to a truthy ID goes to the ID bucket; otherwise, if it is a
string, it goes to the username bucket; otherwise it is dropped. -/
def userBuckets (cache : Collection User) (users : List UserResolvable) :
    List String × List String :=
  users.foldl
    (fun (acc : List String × List String) r =>
      let uid := UserManager.resolveID cache r
      if strTruthy uid then (acc.1 ++ [uid.getD ""], acc.2)
      else
        match r with
        | .str v => (acc.1, acc.2 ++ [v])
        | _ => acc)
    ([], [])

/-- The array branch of `UserManager#fetch` (source lines 258–274): build
the two buckets, issue one `_fetchMany` call per non-empty bucket (the
source checks `userIdsArray.length` truthiness), merge the responses and
build the collection. -/
def UserManager.fetchManyUsers (cache : Collection User) (users : List UserResolvable)
    (rest : UserRest) : Except JsError UserFetchResult × List UserApiCall :=
  let b := userBuckets cache users
  let calls : List UserApiCall :=
    (if b.1.isEmpty then [] else [.manyByIds b.1])
      ++ (if b.2.isEmpty then [] else [.manyByUsernames b.2])
  let usersResponse : List (List RawUser) :=
    (if b.1.isEmpty then [] else [rest.fetchUsersByIds b.1])
      ++ (if b.2.isEmpty then [] else [rest.fetchUsersByUsernames b.2])
  (.ok (.many (buildUserCollection usersResponse.flatten)), calls)

/-- `UserManager#fetch` (source lines 245–289).  Path order as in the
source: `this.resolveID(options)` (bare resolvable, ID endpoint with the
resolved ID); `typeof options === 'string'` (username endpoint); then the
`options.user` probe — the array branch, or the single branch, which
passes the RAW `options.user` value (not the resolved ID) to the ID
endpoint (source line 278).  No cache check is ever performed and
`skipCacheCheck` is never read. -/
def UserManager.fetch (cache : Collection User) (options : UserFetchOptions)
    (rest : UserRest) : Except JsError UserFetchResult × List UserApiCall :=
  match options with
  | .direct r =>
    let uid := UserManager.resolveID cache r
    if strTruthy uid then
      (.ok (.single (buildUser (rest.fetchUserById (.str (uid.getD ""))))),
        [.byId (.str (uid.getD ""))])
    else
      match r with
      | .str v => (.ok (.single (buildUser (rest.fetchUserByUsername v))), [.byUsername v])
      | _ => (.ok .undef, [])
  | .nullOpt => (.error .typeError, [])
  | .obj userField _ =>
    match userField with
    | some (.arr l) => UserManager.fetchManyUsers cache l rest
    | some (.single r) =>
      if resolvableTruthy r then
        let uid := UserManager.resolveID cache r
        if strTruthy uid then
          (.ok (.single (buildUser (rest.fetchUserById r))), [.byId r])
        else
          match r with
          | .str v => (.ok (.single (buildUser (rest.fetchUserByUsername v))), [.byUsername v])
          | _ => (.ok .undef, [])
      else (.ok .undef, [])
    | none => (.ok .undef, [])

/-- The client state visible to the user-resolution helpers: its own
cache plus unrelated per-client state (another manager's cache and the
log of transport calls issued so far), used to state that resolution
depends on nothing but the user cache and the input. -/
structure ClientState where
  userCache : Collection User
  spaceCache : Collection Space
  callLog : List UserApiCall

/-- `UserManager#resolve` as invoked on a client. -/
def resolveOnClient (st : ClientState) (r : UserResolvable) : Option User :=
  UserManager.resolve st.userCache r

/-- `UserManager#resolveID` as invoked on a client. -/
def resolveIDOnClient (st : ClientState) (r : UserResolvable) : Option String :=
  UserManager.resolveID st.userCache r

/-! ## Concrete fixtures used by witnesses and counterexamples -/

/-- A user cache holding one user with ID `123` and username `alice`. -/
def aliceCache : Collection User := [("123", ⟨"123", "alice"⟩)]

/-- A user cache holding one user with ID `7` and username `bob`. -/
def bobCache : Collection User := [("7", ⟨"7", "bob"⟩)]

/-- A concrete REST oracle. -/
def demoRest : UserRest where
  fetchUserById := fun _ => ⟨"123", "alice"⟩
  fetchUserByUsername := fun v => ⟨"900", v⟩
  fetchUsersByIds := fun ids => ids.map (fun i => ⟨i, "u"⟩)
  fetchUsersByUsernames := fun ns => ns.map (fun n => ⟨"7", n⟩)

/-- A concrete single-space response. -/
def demoSingleResp : SingleSpaceResponse := ⟨⟨"42"⟩⟩

/-- A concrete multi-space response with one result. -/
def demoMultiResp : MultiSpaceResponse := ⟨⟨1⟩, some [⟨"42"⟩]⟩

/-- A zero-result multi-space response whose `data` field is absent. -/
def zeroResultResp : MultiSpaceResponse := ⟨⟨0⟩, none⟩

/-- An element is kept by the bucket partition of `UserManager#fetch` when
it resolves to a truthy ID or is of string type. -/
def keptInBuckets (cache : Collection User) (r : UserResolvable) : Bool :=
  strTruthy (UserManager.resolveID cache r)
    || (match r with | .str _ => true | _ => false)

/-- The single fold step of the bucket partition (source lines 261–268). -/
def bucketStep (cache : Collection User) (acc : List String × List String)
    (r : UserResolvable) : List String × List String :=
  let uid := UserManager.resolveID cache r
  if strTruthy uid then (acc.1 ++ [uid.getD ""], acc.2)
  else
    match r with
    | .str v => (acc.1, acc.2 ++ [v])
    | _ => acc

theorem userBuckets_eq_foldl (cache : Collection User) (users : List UserResolvable) :
    userBuckets cache users = users.foldl (bucketStep cache) ([], []) := rfl

theorem bucketStep_dropped (cache : Collection User) (acc : List String × List String)
    (r : UserResolvable) (h : keptInBuckets cache r = false) :
    bucketStep cache acc r = acc := by
  simp only [keptInBuckets, Bool.or_eq_false_iff] at h
  cases r <;> simp_all [bucketStep]

theorem userBuckets_filter_aux (cache : Collection User) (users : List UserResolvable)
    (acc : List String × List String) :
    (users.filter (keptInBuckets cache)).foldl (bucketStep cache) acc
      = users.foldl (bucketStep cache) acc := by
  induction users generalizing acc with
  | nil => rfl
  | cons r rest ih =>
    by_cases h : keptInBuckets cache r = true
    · simp [List.filter_cons, h, List.foldl_cons, ih]
    · simp only [Bool.not_eq_true] at h
      simp [List.filter_cons, h, List.foldl_cons, ih, bucketStep_dropped cache acc r h]

theorem userBuckets_filter (cache : Collection User) (users : List UserResolvable) :
    userBuckets cache (users.filter (keptInBuckets cache)) = userBuckets cache users :=
  userBuckets_filter_aux cache users ([], [])

theorem resolveSpaceIds_fails_of_unresolvable (l : List SpaceResolvable)
    (h : ∃ r, r ∈ l ∧ strTruthy (spaceResolveId r) = false) :
    resolveSpaceIds l = .error (.customType "SPACE_RESOLVE_ID" []) := by
  induction l with
  | nil => rcases h with ⟨r, hr, _⟩; cases hr
  | cons a rest ih =>
    rcases h with ⟨r, hr, hfalse⟩
    rcases List.mem_cons.mp hr with heq | hmem
    · subst heq
      simp [resolveSpaceIds, hfalse]
    · by_cases ha : strTruthy (spaceResolveId a) = true
      · simp [resolveSpaceIds, ha, ih ⟨r, hmem, hfalse⟩]
      · simp only [Bool.not_eq_true] at ha
        simp [resolveSpaceIds, ha]

/-! ## Claim theorems -/

/-- C4 (confirmed): for every cache state and every string input that is
not a canonical-ID-format string, `resolveID` returns the ID of the first
cached user whose username equals the input (null when no such entry
exists), and `resolve` returns that cached user itself (null when
absent); both are total functions and never throw. -/
theorem c4_secondary_key_resolution (cache : Collection User) (v : String)
    (h : isSnowflake v = false) :
    UserManager.resolveID cache (.str v)
      = (Collection.findVal cache (fun u => u.username == v)).map (fun u => u.id) ∧
    UserManager.resolve cache (.str v)
      = Collection.findVal cache (fun u => u.username == v) ∧
    (Collection.findVal cache (fun u => u.username == v) = none ↔
      ∀ p ∈ cache, p.2.username ≠ v) ∧
    (∀ u, Collection.findVal cache (fun u => u.username == v) = some u →
      (∃ k, (k, u) ∈ cache) ∧ u.username = v) := by
  refine ⟨?_, ?_, ?_, ?_⟩
  · simp [UserManager.resolveID, baseResolveID, h, strTruthy]
  · simp [UserManager.resolve, baseResolve, baseResolveID, h, strTruthy]
  · simp only [Collection.findVal, Option.map_eq_none', List.find?_eq_none]
    constructor
    · intro hall p hp
      have := hall p hp
      simpa using this
    · intro hall p hp
      have := hall p hp
      simpa using this
  · intro u hu
    simp only [Collection.findVal, Option.map_eq_some'] at hu
    rcases hu with ⟨kv, hfind, hsnd⟩
    have hmem := List.mem_of_find?_eq_some hfind
    have hp := List.find?_some hfind
    subst hsnd
    refine ⟨⟨kv.1, hmem⟩, ?_⟩
    simpa using hp

/-- Witness for C4 at a concrete cache and input. -/
theorem c4_secondary_key_resolution_witness :
    isSnowflake "bob" = false ∧
    UserManager.resolveID bobCache (.str "bob")
      = (Collection.findVal bobCache (fun u => u.username == "bob")).map
          (fun u => u.id) :=
  ⟨by decide, (c4_secondary_key_resolution bobCache "bob" (by decide)).1⟩

/-- C5 (confirmed): the array branch of `UserManager#fetch` partitions the
inputs into an ID bucket and a username bucket and issues exactly one
batched transport call per non-empty bucket, hence at most two transport
calls in total and never one call per item. -/
theorem c5_batched_bucket_calls (cache : Collection User) (users : List UserResolvable)
    (rest : UserRest) (skip : Bool) :
    (UserManager.fetch cache (.obj (some (.arr users)) skip) rest).2
      = (if (userBuckets cache users).1.isEmpty then []
          else [UserApiCall.manyByIds (userBuckets cache users).1])
        ++ (if (userBuckets cache users).2.isEmpty then []
            else [UserApiCall.manyByUsernames (userBuckets cache users).2]) ∧
    (UserManager.fetch cache (.obj (some (.arr users)) skip) rest).2.length ≤ 2 := by
  refine ⟨rfl, ?_⟩
  show ((if (userBuckets cache users).1.isEmpty then []
      else [UserApiCall.manyByIds (userBuckets cache users).1])
    ++ (if (userBuckets cache users).2.isEmpty then []
        else [UserApiCall.manyByUsernames (userBuckets cache users).2])).length ≤ 2
  split <;> split <;> simp

/-- C7 (confirmed): resolution is a deterministic, read-only function of
the user cache and the input — two clients (or two moments of one client)
agreeing on the user cache yield identical `resolve` and `resolveID`
results regardless of any other client state. -/
theorem c7_resolution_deterministic (st1 st2 : ClientState) (r : UserResolvable)
    (h : st1.userCache = st2.userCache) :
    resolveOnClient st1 r = resolveOnClient st2 r ∧
    resolveIDOnClient st1 r = resolveIDOnClient st2 r := by
  simp [resolveOnClient, resolveIDOnClient, h]

/-- Witness for C7: two client states that differ in the space cache and
the call log but share the user cache resolve identically. -/
theorem c7_resolution_deterministic_witness :
    ClientState.userCache ⟨aliceCache, [], []⟩
      = ClientState.userCache ⟨aliceCache, [("5", ⟨"5"⟩)], [.byUsername "x"]⟩ ∧
    resolveOnClient ⟨aliceCache, [], []⟩ (.str "alice")
      = resolveOnClient ⟨aliceCache, [("5", ⟨"5"⟩)], [.byUsername "x"]⟩ (.str "alice") :=
  ⟨rfl,
    (c7_resolution_deterministic ⟨aliceCache, [], []⟩
      ⟨aliceCache, [("5", ⟨"5"⟩)], [.byUsername "x"]⟩ (.str "alice") rfl).1⟩

/-- C9 (confirmed): in a batch user fetch, an element that neither
resolves to a truthy ID nor is of string type is silently dropped: the
whole fetch behaves exactly as if the element had not been passed, no
error is raised, and the result is a collection (which therefore lacks an
entry for the dropped element). -/
theorem c9_unresolvable_nonstring_elements_dropped (cache : Collection User)
    (users : List UserResolvable) (rest : UserRest) (skip : Bool) :
    UserManager.fetch cache (.obj (some (.arr users)) skip) rest
      = UserManager.fetch cache
          (.obj (some (.arr (users.filter (keptInBuckets cache)))) skip) rest ∧
    ∃ col, (UserManager.fetch cache (.obj (some (.arr users)) skip) rest).1
      = .ok (.many col) := by
  constructor
  · show UserManager.fetchManyUsers cache users rest
      = UserManager.fetchManyUsers cache (users.filter (keptInBuckets cache)) rest
    unfold UserManager.fetchManyUsers
    rw [userBuckets_eq_foldl, userBuckets_eq_foldl, userBuckets_filter_aux]
  · exact ⟨_, rfl⟩

/-- C1 (counterexample): `UserManager#fetch` violates the claim — with a
cache containing the user with ID `123`, a single fetch of that ID with
`skipCacheCheck: false` still issues a transport call instead of
returning the cached entity without one. -/
theorem c1_cached_user_still_hits_transport :
    Collection.get aliceCache "123" = some ⟨"123", "alice"⟩ ∧
    (UserManager.fetch aliceCache (.obj (some (.single (.str "123"))) false) demoRest).2
      = [.byId (.str "123")] ∧
    [UserApiCall.byId (.str "123")] ≠ ([] : List UserApiCall) :=
  ⟨rfl, rfl, by decide⟩

/-- C1 (amended): for `SpaceManager` single-entity fetches the claim
holds — `skipCacheCheck` false plus a cache hit returns the cached space
with no transport call and no cache mutation, and `skipCacheCheck` true
issues exactly one transport call regardless of cache state; the
`UserManager` single fetch instead never consults the cache and invokes
the transport exactly once whenever it performs a single fetch. -/
theorem c1_space_single_fetch_cache_semantics (cache : Collection Space)
    (o : SpaceOptionsObj) (r : SpaceResolvable) (sid : String)
    (sresp : SingleSpaceResponse) (mresp : MultiSpaceResponse) (s : Space)
    (hs : o.space = some r) (hr : spaceResolveId r = some sid) (hne : sid ≠ "") :
    (o.skipCacheCheck = false → Collection.get cache sid = some s →
      SpaceManager.fetch cache (.obj o) sresp mresp = (.ok (.single s), [], cache)) ∧
    (o.skipCacheCheck = true →
      (SpaceManager.fetch cache (.obj o) sresp mresp).2.1 = [.singleById sid]) ∧
    (∀ (ucache : Collection User) (v : String) (rest : UserRest),
      (UserManager.fetch ucache (.direct (.str v)) rest).2.length = 1) := by
  have hemp : sid.isEmpty = false := by
    cases he : sid.isEmpty
    · rfl
    · exact absurd ((String.isEmpty_iff sid).mp he) hne
  have hst : strTruthy (some sid) = true := by
    simp [strTruthy, hemp]
  refine ⟨?_, ?_, ?_⟩
  · intro hskip hcache
    simp [SpaceManager.fetch, hs, hr, hst, fetchSingleSpace, hskip, hcache]
  · intro hskip
    simp [SpaceManager.fetch, hs, hr, hst, fetchSingleSpace, hskip]
  · intro ucache v rest
    cases h : strTruthy (UserManager.resolveID ucache (.str v)) <;>
      simp [UserManager.fetch, h]

/-- Witness for C1 (amended) at a concrete cache, space and responses. -/
theorem c1_space_single_fetch_cache_semantics_witness :
    SpaceOptionsObj.space ⟨some (.str "5"), none, false, none⟩ = some (.str "5") ∧
    spaceResolveId (.str "5") = some "5" ∧
    SpaceManager.fetch [("5", ⟨"5"⟩)] (.obj ⟨some (.str "5"), none, false, none⟩)
        demoSingleResp demoMultiResp
      = (.ok (.single ⟨"5"⟩), [], [("5", ⟨"5"⟩)]) :=
  ⟨rfl, by decide,
    (c1_space_single_fetch_cache_semantics [("5", ⟨"5"⟩)]
      ⟨some (.str "5"), none, false, none⟩ (.str "5") "5" demoSingleResp demoMultiResp
      ⟨"5"⟩ rfl (by decide) (by decide)).1 rfl rfl⟩

/-- C2 (counterexample): `SpaceManager`s multi-space fetch performs no
`meta.result_count` check — on a zero-result response whose `data` field
is absent it reads `data` anyway and throws a `TypeError` instead of
returning an empty collection. -/
theorem c2_multi_space_zero_result_throws :
    zeroResultResp.meta.result_count = 0 ∧
    SpaceManager.fetch [] (.obj ⟨none, some (.arr [.str "1"]), false, none⟩)
        demoSingleResp zeroResultResp
      = (.error .typeError, [.multiByIds ["1"]], []) :=
  ⟨rfl, rfl⟩

/-- C2 (amended): only `fetchByCreatorIds` and `search` check
`meta.result_count`; for those, a zero-result response yields an empty
collection with no error, no cache mutation, and a result independent of
the response data field (the field is never read); the by-IDs multi
fetch and the single fetch perform no such check. -/
theorem c2_zero_result_checked_paths (ucache : Collection User)
    (scache : Collection Space) (o : CreatorIdsOptionsObj) (l : List UserResolvable)
    (ids : List String) (resp : MultiSpaceResponse) (so : SearchSpacesOpts)
    (hu : o.users = some (.arr l)) (hres : resolveUserIds ucache l = .ok ids)
    (h0 : resp.meta.result_count = 0) :
    SpaceManager.fetchByCreatorIds ucache scache (.obj o) resp
      = (.ok [], [.byCreatorIds ids], scache) ∧
    (∀ d, SpaceManager.fetchByCreatorIds ucache scache (.obj o) { resp with data := d }
      = SpaceManager.fetchByCreatorIds ucache scache (.obj o) resp) ∧
    SpaceManager.search scache so resp = (.ok [], [.searchSpaces so.query], scache) ∧
    (∀ d, SpaceManager.search scache so { resp with data := d }
      = SpaceManager.search scache so resp) := by
  refine ⟨?_, ?_, ?_, ?_⟩
  · simp [SpaceManager.fetchByCreatorIds, hu, hres, h0]
  · intro d
    simp [SpaceManager.fetchByCreatorIds, hu, hres, h0]
  · simp [SpaceManager.search, h0]
  · intro d
    simp [SpaceManager.search, h0]

/-- Witness for C2 (amended) at a concrete cache, options and response. -/
theorem c2_zero_result_checked_paths_witness :
    resolveUserIds aliceCache [.str "123"] = .ok ["123"] ∧
    zeroResultResp.meta.result_count = 0 ∧
    SpaceManager.fetchByCreatorIds aliceCache [] (.obj ⟨some (.arr [.str "123"]), none⟩)
        zeroResultResp
      = (.ok [], [.byCreatorIds ["123"]], []) :=
  ⟨rfl, rfl,
    (c2_zero_result_checked_paths aliceCache [] ⟨some (.arr [.str "123"]), none⟩
      [.str "123"] ["123"] zeroResultResp ⟨"q", none⟩ rfl rfl rfl).1⟩

/-- C3 (counterexample): for `options = null` — which is malformed (not
an object), yet satisfies `typeof options === 'object'` — the managers
throw a native `TypeError` from the `'space' in options` / `options.users`
access, not the `InvalidArgument` (`CustomTypeError`) the claim
requires.  No transport call is made. -/
theorem c3_null_options_typeerror :
    SpaceManager.fetch [] .nullOpt demoSingleResp demoMultiResp
      = (.error .typeError, [], []) ∧
    SpaceManager.fetchByCreatorIds [] [] .nullOpt demoMultiResp
      = (.error .typeError, [], []) ∧
    JsError.typeError ≠ JsError.customType "INVALID_TYPE" ["options", "object"] :=
  ⟨rfl, rfl, by decide⟩

/-- C3 (amended): malformed options raise an error before any transport
call: a `CustomTypeError` (`InvalidArgument`) when `typeof options` is
not `object`, when the expected list field (`spaces` / `users`) is
present but not an array, or when neither recognized field is present —
but a native `TypeError` (not `InvalidArgument`) when options is `null`.
In every case the call list is empty and the cache is untouched. -/
theorem c3_invalid_options_rejected (cache : Collection Space)
    (ucache : Collection User) (o : SpaceOptionsObj) (co : CreatorIdsOptionsObj)
    (sresp : SingleSpaceResponse) (mresp : MultiSpaceResponse) :
    SpaceManager.fetch cache .notObject sresp mresp
      = (.error (.customType "INVALID_TYPE" ["options", "object"]), [], cache) ∧
    SpaceManager.fetch cache .nullOpt sresp mresp = (.error .typeError, [], cache) ∧
    (o.space = none → o.spaces = some .nonArray →
      SpaceManager.fetch cache (.obj o) sresp mresp
        = (.error (.customType "INVALID_TYPE" ["spaces", "array"]), [], cache)) ∧
    (o.space = none → o.spaces = none →
      SpaceManager.fetch cache (.obj o) sresp mresp
        = (.error (.customType "INVALID_FETCH_OPTIONS" []), [], cache)) ∧
    SpaceManager.fetchByCreatorIds ucache cache .notObject mresp
      = (.error (.customType "INVALID_TYPE" ["options", "object"]), [], cache) ∧
    SpaceManager.fetchByCreatorIds ucache cache .nullOpt mresp
      = (.error .typeError, [], cache) ∧
    (co.users = some .nonArray ∨ co.users = none →
      SpaceManager.fetchByCreatorIds ucache cache (.obj co) mresp
        = (.error (.customType "INVALID_TYPE" ["users", "array"]), [], cache)) := by
  refine ⟨rfl, rfl, ?_, ?_, rfl, rfl, ?_⟩
  · intro h1 h2
    simp [SpaceManager.fetch, h1, h2]
  · intro h1 h2
    simp [SpaceManager.fetch, h1, h2]
  · rintro (h | h) <;> simp [SpaceManager.fetchByCreatorIds, h]

/-- Witness for C3 (amended): a non-array `spaces` field and a non-array
`users` field are rejected with `INVALID_TYPE` and no transport call. -/
theorem c3_invalid_options_rejected_witness :
    SpaceManager.fetch [] (.obj ⟨none, some .nonArray, false, none⟩)
        demoSingleResp demoMultiResp
      = (.error (.customType "INVALID_TYPE" ["spaces", "array"]), [], []) ∧
    SpaceManager.fetchByCreatorIds aliceCache [] (.obj ⟨some .nonArray, none⟩) demoMultiResp
      = (.error (.customType "INVALID_TYPE" ["users", "array"]), [], []) :=
  ⟨(c3_invalid_options_rejected [] aliceCache ⟨none, some .nonArray, false, none⟩
      ⟨some .nonArray, none⟩ demoSingleResp demoMultiResp).2.2.1 rfl rfl,
    (c3_invalid_options_rejected [] aliceCache ⟨none, some .nonArray, false, none⟩
      ⟨some .nonArray, none⟩ demoSingleResp demoMultiResp).2.2.2.2.2.2 (Or.inl rfl)⟩

/-- C6 (code evaluated at the failing input): with the user `{id: "123",
username: "alice"}` cached, `fetch({user: "alice"})` resolves the
resolvable to the canonical ID `123`, yet passes the raw value `"alice"`
— not the resolved ID — to the ID-based endpoint (source line 278),
contradicting the claim and the manager's own `_fetchSingle`
documentation. -/
theorem c6_id_endpoint_receives_raw_resolvable :
    UserManager.resolveID aliceCache (.str "alice") = some "123" ∧
    (UserManager.fetch aliceCache (.obj (some (.single (.str "alice"))) false) demoRest).2
      = [.byId (.str "alice")] ∧
    UserApiCall.byId (.str "alice") ≠ UserApiCall.byId (.str "123") :=
  ⟨rfl, rfl, by decide⟩

/-- C8 (confirmed): whenever `SpaceManager#fetch` is given a resolvable
(directly, or as an element of the `spaces` array) whose resolution is
falsy, it throws `SPACE_RESOLVE_ID` (the resolution error) with no
transport call and no cache mutation. -/
theorem c8_unresolvable_space_raises_before_transport (cache : Collection Space)
    (o : SpaceOptionsObj) (sresp : SingleSpaceResponse) (mresp : MultiSpaceResponse) :
    (∀ r, o.space = some r → strTruthy (spaceResolveId r) = false →
      SpaceManager.fetch cache (.obj o) sresp mresp
        = (.error (.customType "SPACE_RESOLVE_ID" []), [], cache)) ∧
    (∀ l, o.space = none → o.spaces = some (.arr l) →
      (∃ r, r ∈ l ∧ strTruthy (spaceResolveId r) = false) →
      SpaceManager.fetch cache (.obj o) sresp mresp
        = (.error (.customType "SPACE_RESOLVE_ID" []), [], cache)) := by
  constructor
  · intro r hr hfalse
    simp [SpaceManager.fetch, hr, hfalse]
  · intro l hsp hspaces hex
    simp [SpaceManager.fetch, hsp, hspaces,
      resolveSpaceIds_fails_of_unresolvable l hex]

/-- Witness for C8: the non-numeric string `abc` does not resolve, and
fetching it as a space fails with `SPACE_RESOLVE_ID` and no call. -/
theorem c8_unresolvable_space_raises_before_transport_witness :
    strTruthy (spaceResolveId (.str "abc")) = false ∧
    SpaceManager.fetch [] (.obj ⟨some (.str "abc"), none, false, none⟩)
        demoSingleResp demoMultiResp
      = (.error (.customType "SPACE_RESOLVE_ID" []), [], []) :=
  ⟨by decide,
    (c8_unresolvable_space_raises_before_transport []
      ⟨some (.str "abc"), none, false, none⟩ demoSingleResp demoMultiResp).1
      (.str "abc") rfl (by decide)⟩

/-- C10 (confirmed): when the options object carries a `space` field, the
single-fetch path is taken and the `spaces` field is ignored entirely —
the result is the same for every value of `spaces`, including a
non-array value that would otherwise fail shape validation. -/
theorem c10_space_field_takes_precedence (cache : Collection Space)
    (o : SpaceOptionsObj) (r : SpaceResolvable) (sresp : SingleSpaceResponse)
    (mresp : MultiSpaceResponse) (h : o.space = some r) :
    (∀ sp sp2, SpaceManager.fetch cache (.obj { o with spaces := sp }) sresp mresp
      = SpaceManager.fetch cache (.obj { o with spaces := sp2 }) sresp mresp) ∧
    SpaceManager.fetch cache (.obj o) sresp mresp
      = (if strTruthy (spaceResolveId r) then
          (.ok (.single (fetchSingleSpace cache o ((spaceResolveId r).getD "") sresp).1),
            (fetchSingleSpace cache o ((spaceResolveId r).getD "") sresp).2.1,
            (fetchSingleSpace cache o ((spaceResolveId r).getD "") sresp).2.2)
        else (.error (.customType "SPACE_RESOLVE_ID" []), [], cache)) := by
  constructor
  · intro sp sp2
    simp [SpaceManager.fetch, h, fetchSingleSpace, addSpaceToCache]
  · simp only [SpaceManager.fetch, h]

/-- Witness for C10: with both fields present (`spaces` even malformed),
the result equals the one with `spaces` absent. -/
theorem c10_space_field_takes_precedence_witness :
    SpaceManager.fetch [] (.obj ⟨some (.str "123"), some .nonArray, false, none⟩)
        demoSingleResp demoMultiResp
      = SpaceManager.fetch [] (.obj ⟨some (.str "123"), none, false, none⟩)
          demoSingleResp demoMultiResp :=
  (c10_space_field_takes_precedence [] ⟨some (.str "123"), some .nonArray, false, none⟩
    (.str "123") demoSingleResp demoMultiResp rfl).1 (some .nonArray) none

end TwitterJs
